import Mathlib

/-!
Verification of the customer-segmentation core of this repository.

The segment classifier lives in `src/app.py` (`predict_customer_segment`,
lines 85-127); the deployed configuration is the `business_rules` dictionary
built in `src/Models/business_rules.py`.  Raw RFM values and thresholds are
Python floats; we embed them as rationals, which is faithful for the order
comparisons and the exact decimal constants the code uses.  The external
Feature Scaler (`scaler.transform`) and Base Clusterer (`kmeans.predict`) are
opaque pre-fitted artifacts; we embed them as arbitrary functions on
3-vectors, so every theorem quantifies over their behavior.
-/

namespace CustomerSegmentation

/-- A raw or scaled 3-feature vector `[recency, frequency, monetary]`
(`np.array([[recency, frequency, monetary]])` in `app.py`, line 105). -/
abbrev Vec3 := ℚ × ℚ × ℚ

/-- The `outlier_thresholds` entry of the business-rules configuration
(`business_rules.py`, lines 7-10). -/
structure OutlierThresholds where
  monetary : ℚ
  frequency : ℚ
deriving Repr, DecidableEq

/-- The business-rules configuration dictionary as read by `app.py`:
`outlier_thresholds`, `cluster_mapping`, `cluster_descriptions`, and the
optional `response_template` key that `app.py` line 125 reads but the
construction snippet in `business_rules.py` never sets.  String-keyed
dictionaries are embedded as association lists. -/
structure BusinessRules where
  outlier_thresholds : OutlierThresholds
  cluster_mapping : List (String × String)
  cluster_descriptions : List (String × String)
  response_template : Option String

/-- Python dict lookup `d[k]` on an association list: `some` value, or
`none` where Python raises `KeyError`. -/
def dictGet (d : List (String × String)) (k : String) : Option String :=
  (d.find? (fun p => p.1 == k)).map Prod.snd

/-- The deployed configuration, verbatim from the `business_rules`
dictionary in `src/Models/business_rules.py` lines 6-29.  The monetary
threshold `3799.39` is written as the kernel-reducible rational
`mkRat 379939 100`; `referenceMonetary_eq` below identifies it with the
decimal literal. -/
def referenceRules : BusinessRules :=
  { outlier_thresholds := { monetary := mkRat 379939 100, frequency := 11 }
  , cluster_mapping :=
      [ ("0", "Regular"), ("1", "Lapsed"), ("2", "Occasional"), ("3", "Premium")
      , ("A", "High_Spender"), ("B", "Power_Shopper"), ("C", "Elite") ]
  , cluster_descriptions :=
      [ ("Regular", "Steady customers with moderate buying patterns")
      , ("Lapsed", "Inactive customers needing re-engagement")
      , ("Occasional", "Infrequent buyers with low spending")
      , ("Premium", "Consistent buyers with moderate spending")
      , ("High_Spender", "Customers spending over $3,799 (big spenders)")
      , ("Power_Shopper", "Customers with over 11 purchases (very active)")
      , ("Elite", "VIP: Both high spending AND high frequency") ]
  , response_template := none }

/-- The index-to-name chain of `app.py` lines 112-119: `0 → Regular`,
`1 → Lapsed`, `2 → Occasional`, anything else falls into the final
`else` branch and becomes `Premium`. -/
def clusterNumName (cluster_num : ℤ) : String :=
  if cluster_num = 0 then "Regular"
  else if cluster_num = 1 then "Lapsed"
  else if cluster_num = 2 then "Occasional"
  else "Premium"

/-- The canonical-segment computation of `predict_customer_segment`
(`app.py` lines 92-119): outlier rules first, KMeans fallback second.
`scalerTransform` and `kmeansPredict` stand for the opaque
`scaler.transform` and `kmeans.predict` artifacts. -/
def clusterNameOf (rules : BusinessRules)
    (scalerTransform : Vec3 → Vec3) (kmeansPredict : Vec3 → ℤ)
    (recency frequency monetary : ℚ) : String :=
  let mv_threshold := rules.outlier_thresholds.monetary
  let freq_threshold := rules.outlier_thresholds.frequency
  if monetary > mv_threshold ∧ frequency > freq_threshold then "Elite"
  else if monetary > mv_threshold then "High_Spender"
  else if frequency > freq_threshold then "Power_Shopper"
  else
    let features : Vec3 := (recency, frequency, monetary)
    let scaled_features := scalerTransform features
    let cluster_num := kmeansPredict scaled_features
    clusterNumName cluster_num

/-- Errors the prediction path can raise: `KeyError` from a dict lookup
(`cluster_mapping[cluster_name]` at line 122, `business_rules["response_template"]`
at line 125). -/
inductive PredictError where
  | keyError (key : String)
deriving Repr, DecidableEq

/-- `template.format(segment=display_name)` (`app.py` line 125):
substitute the display label into the single `\x7bsegment\x7d` slot. -/
def formatTemplate (template displayName : String) : String :=
  template.replace "{segment}" displayName

/-- The full `predict_customer_segment` (`app.py` lines 85-127): compute the
canonical segment, look up the display name in `cluster_mapping`, format the
response template, and return `(response, display_name, cluster_name)`.
A missing dict key surfaces as `PredictError.keyError`, as the corresponding
Python lookup raises `KeyError`. -/
def predict_customer_segment (rules : BusinessRules)
    (scalerTransform : Vec3 → Vec3) (kmeansPredict : Vec3 → ℤ)
    (recency frequency monetary : ℚ) :
    Except PredictError (String × String × String) :=
  let cluster_name := clusterNameOf rules scalerTransform kmeansPredict
    recency frequency monetary
  match dictGet rules.cluster_mapping cluster_name with
  | none => .error (.keyError cluster_name)
  | some display_name =>
    match rules.response_template with
    | none => .error (.keyError "response_template")
    | some template =>
        .ok (formatTemplate template display_name, display_name, cluster_name)

/-- The fixed index-to-name table stated by the spec for the clustering
fallback: `0→Regular, 1→Lapsed, 2→Occasional, 3→Premium`. -/
def specIndexTable : List (ℤ × String) :=
  [(0, "Regular"), (1, "Lapsed"), (2, "Occasional"), (3, "Premium")]

/-- Lookup in an integer-keyed table. -/
def indexTableGet (t : List (ℤ × String)) (n : ℤ) : Option String :=
  (t.find? (fun p => p.1 == n)).map Prod.snd

/-- Which arm of the `if/elif/elif/else` cascade of `app.py` lines 96-102 a
triple selects. -/
inductive Branch where
  | elite
  | highSpender
  | powerShopper
  | fallback
deriving Repr, DecidableEq

/-- The branch-selection logic of `predict_customer_segment`, isolated from
the fallback computation.  The conditions at `app.py` lines 96-100 read only
`monetary` and `frequency`. -/
def branchOf (rules : BusinessRules) (recency frequency monetary : ℚ) : Branch :=
  if monetary > rules.outlier_thresholds.monetary ∧
      frequency > rules.outlier_thresholds.frequency then .elite
  else if monetary > rules.outlier_thresholds.monetary then .highSpender
  else if frequency > rules.outlier_thresholds.frequency then .powerShopper
  else .fallback

/-- Instrumented variant of the canonical-segment computation that also
reports how many times the scaler and the clusterer were invoked: the
fallback branch (`app.py` lines 102-109) calls each exactly once, the three
outlier branches call neither. -/
def clusterNameCounted (rules : BusinessRules)
    (scalerTransform : Vec3 → Vec3) (kmeansPredict : Vec3 → ℤ)
    (recency frequency monetary : ℚ) : String × ℕ × ℕ :=
  if monetary > rules.outlier_thresholds.monetary ∧
      frequency > rules.outlier_thresholds.frequency then ("Elite", 0, 0)
  else if monetary > rules.outlier_thresholds.monetary then ("High_Spender", 0, 0)
  else if frequency > rules.outlier_thresholds.frequency then ("Power_Shopper", 0, 0)
  else
    let features : Vec3 := (recency, frequency, monetary)
    let scaled_features := scalerTransform features
    let cluster_num := kmeansPredict scaled_features
    (clusterNumName cluster_num, 1, 1)

/-- The mutable globals a prediction request can observe: the configuration
dictionary and the two model artifacts loaded once at startup
(`app.py` line 80). -/
structure AppState where
  business_rules : BusinessRules
  scaler : Vec3 → Vec3
  kmeans : Vec3 → ℤ

/-- State-passing embedding of one prediction request.  The body of
`predict_customer_segment` (`app.py` lines 85-127) only reads
`business_rules`, `scaler` and `kmeans`; it contains no assignment to any
of them, so the post-state it hands to the next request is the state it
received. -/
def predictInState (st : AppState) (recency frequency monetary : ℚ) :
    Except PredictError (String × String × String) × AppState :=
  (predict_customer_segment st.business_rules st.scaler st.kmeans
    recency frequency monetary, st)

/-- A hypothetical repair of the deployed configuration whose display
mapping is keyed by the canonical segment names the code actually looks up
(`app.py` line 122); used to show that even then the missing
`response_template` key makes every request fail. -/
def repairedMappingRules : BusinessRules :=
  { referenceRules with cluster_mapping :=
      [ ("Regular", "Regular"), ("Lapsed", "Lapsed")
      , ("Occasional", "Occasional"), ("Premium", "Premium")
      , ("High_Spender", "High Spender"), ("Power_Shopper", "Power Shopper")
      , ("Elite", "Elite") ] }

section Helpers

variable (rules : BusinessRules) (s : Vec3 → Vec3) (k : Vec3 → ℤ)
variable (recency frequency monetary : ℚ)

theorem clusterNameOf_eq_branch :
    clusterNameOf rules s k recency frequency monetary =
      match branchOf rules recency frequency monetary with
      | .elite => "Elite"
      | .highSpender => "High_Spender"
      | .powerShopper => "Power_Shopper"
      | .fallback => clusterNumName (k (s (recency, frequency, monetary))) := by
  unfold clusterNameOf branchOf
  dsimp only
  split_ifs <;> rfl

theorem clusterNameCounted_fst :
    (clusterNameCounted rules s k recency frequency monetary).1 =
      clusterNameOf rules s k recency frequency monetary := by
  unfold clusterNameCounted clusterNameOf
  dsimp only
  split_ifs <;> rfl

theorem clusterNameOf_elite
    (hm : monetary > rules.outlier_thresholds.monetary)
    (hf : frequency > rules.outlier_thresholds.frequency) :
    clusterNameOf rules s k recency frequency monetary = "Elite" := by
  unfold clusterNameOf
  dsimp only
  rw [if_pos ⟨hm, hf⟩]

theorem clusterNameOf_high_spender
    (hm : monetary > rules.outlier_thresholds.monetary)
    (hf : ¬ frequency > rules.outlier_thresholds.frequency) :
    clusterNameOf rules s k recency frequency monetary = "High_Spender" := by
  unfold clusterNameOf
  dsimp only
  rw [if_neg (by tauto), if_pos hm]

theorem clusterNameOf_power_shopper
    (hm : ¬ monetary > rules.outlier_thresholds.monetary)
    (hf : frequency > rules.outlier_thresholds.frequency) :
    clusterNameOf rules s k recency frequency monetary = "Power_Shopper" := by
  unfold clusterNameOf
  dsimp only
  rw [if_neg (by tauto), if_neg hm, if_pos hf]

theorem clusterNameOf_fallback
    (hm : ¬ monetary > rules.outlier_thresholds.monetary)
    (hf : ¬ frequency > rules.outlier_thresholds.frequency) :
    clusterNameOf rules s k recency frequency monetary =
      clusterNumName (k (s (recency, frequency, monetary))) := by
  unfold clusterNameOf
  dsimp only
  rw [if_neg (by tauto), if_neg hm, if_neg hf]

theorem clusterNumName_cases (n : ℤ) :
    clusterNumName n = "Regular" ∨ clusterNumName n = "Lapsed" ∨
    clusterNumName n = "Occasional" ∨ clusterNumName n = "Premium" := by
  unfold clusterNumName
  split_ifs <;> simp

end Helpers

/-- The deployed monetary threshold is the decimal `3799.39` of
`business_rules.py` line 8. -/
theorem referenceMonetary_eq :
    referenceRules.outlier_thresholds.monetary = (3799.39 : ℚ) := by
  norm_num [referenceRules, mkRat]

/-- C1: for every input triple and every pair of thresholds, classification
follows the exact rule precedence: Elite when both thresholds are strictly
exceeded, else High_Spender on the monetary threshold, else Power_Shopper
on the frequency threshold, else the clustering fallback determines the
segment. -/
theorem rule_precedence (rules : BusinessRules)
    (s : Vec3 → Vec3) (k : Vec3 → ℤ) (recency frequency monetary : ℚ) :
    (monetary > rules.outlier_thresholds.monetary ∧
        frequency > rules.outlier_thresholds.frequency →
      clusterNameOf rules s k recency frequency monetary = "Elite") ∧
    (monetary > rules.outlier_thresholds.monetary ∧
        ¬ frequency > rules.outlier_thresholds.frequency →
      clusterNameOf rules s k recency frequency monetary = "High_Spender") ∧
    (¬ monetary > rules.outlier_thresholds.monetary ∧
        frequency > rules.outlier_thresholds.frequency →
      clusterNameOf rules s k recency frequency monetary = "Power_Shopper") ∧
    (¬ monetary > rules.outlier_thresholds.monetary ∧
        ¬ frequency > rules.outlier_thresholds.frequency →
      clusterNameOf rules s k recency frequency monetary =
        clusterNumName (k (s (recency, frequency, monetary)))) :=
  ⟨fun h => clusterNameOf_elite rules s k recency frequency monetary h.1 h.2,
   fun h => clusterNameOf_high_spender rules s k recency frequency monetary h.1 h.2,
   fun h => clusterNameOf_power_shopper rules s k recency frequency monetary h.1 h.2,
   fun h => clusterNameOf_fallback rules s k recency frequency monetary h.1 h.2⟩

/-- Witness for `rule_precedence`: all four branches exercised at the
reference thresholds. -/
theorem rule_precedence_witness :
    clusterNameOf referenceRules id (fun _ => 0) 10 25 15000 = "Elite" ∧
    clusterNameOf referenceRules id (fun _ => 0) 10 5 15000 = "High_Spender" ∧
    clusterNameOf referenceRules id (fun _ => 0) 1 20 100 = "Power_Shopper" ∧
    clusterNameOf referenceRules id (fun _ => 0) 45 8 1200 =
      clusterNumName ((fun _ => (0 : ℤ)) (id ((45 : ℚ), (8 : ℚ), (1200 : ℚ)))) :=
  ⟨(rule_precedence referenceRules id (fun _ => 0) 10 25 15000).1
      ⟨by decide, by decide⟩,
   (rule_precedence referenceRules id (fun _ => 0) 10 5 15000).2.1
      ⟨by decide, by decide⟩,
   (rule_precedence referenceRules id (fun _ => 0) 1 20 100).2.2.1
      ⟨by decide, by decide⟩,
   (rule_precedence referenceRules id (fun _ => 0) 45 8 1200).2.2.2
      ⟨by decide, by decide⟩⟩

/-- C2: threshold comparisons are strict.  A monetary value exactly at the
monetary threshold never yields High_Spender or Elite and falls through to
the frequency rule or the clustering fallback; a frequency exactly at the
frequency threshold never yields Power_Shopper or Elite. -/
theorem strict_threshold_boundary (rules : BusinessRules)
    (s : Vec3 → Vec3) (k : Vec3 → ℤ) (recency frequency monetary : ℚ) :
    (monetary = rules.outlier_thresholds.monetary →
      clusterNameOf rules s k recency frequency monetary ≠ "Elite" ∧
      clusterNameOf rules s k recency frequency monetary ≠ "High_Spender" ∧
      (frequency > rules.outlier_thresholds.frequency →
        clusterNameOf rules s k recency frequency monetary = "Power_Shopper") ∧
      (¬ frequency > rules.outlier_thresholds.frequency →
        clusterNameOf rules s k recency frequency monetary =
          clusterNumName (k (s (recency, frequency, monetary))))) ∧
    (frequency = rules.outlier_thresholds.frequency →
      clusterNameOf rules s k recency frequency monetary ≠ "Elite" ∧
      clusterNameOf rules s k recency frequency monetary ≠ "Power_Shopper") := by
  constructor
  · intro hm
    have hm' : ¬ monetary > rules.outlier_thresholds.monetary := by
      rw [hm]
      exact lt_irrefl _
    by_cases hf : frequency > rules.outlier_thresholds.frequency
    · rw [clusterNameOf_power_shopper rules s k recency frequency monetary hm' hf]
      exact ⟨by decide, by decide, fun _ => rfl, fun hf' => absurd hf hf'⟩
    · rw [clusterNameOf_fallback rules s k recency frequency monetary hm' hf]
      refine ⟨?_, ?_, fun hf' => absurd hf' hf, fun _ => rfl⟩
      · rcases clusterNumName_cases (k (s (recency, frequency, monetary))) with
          h | h | h | h <;> rw [h] <;> decide
      · rcases clusterNumName_cases (k (s (recency, frequency, monetary))) with
          h | h | h | h <;> rw [h] <;> decide
  · intro hf
    have hf' : ¬ frequency > rules.outlier_thresholds.frequency := by
      rw [hf]
      exact lt_irrefl _
    by_cases hm : monetary > rules.outlier_thresholds.monetary
    · rw [clusterNameOf_high_spender rules s k recency frequency monetary hm hf']
      exact ⟨by decide, by decide⟩
    · rw [clusterNameOf_fallback rules s k recency frequency monetary hm hf']
      constructor <;>
        rcases clusterNumName_cases (k (s (recency, frequency, monetary))) with
          h | h | h | h <;> rw [h] <;> decide

/-- Witness for `strict_threshold_boundary`: exactly at the monetary
threshold the fallback is taken; exactly at the frequency threshold the
result is not Elite. -/
theorem strict_threshold_boundary_witness :
    clusterNameOf referenceRules id (fun _ => 0) 5 5 (mkRat 379939 100) =
      clusterNumName
        ((fun _ => (0 : ℤ)) (id ((5 : ℚ), (5 : ℚ), mkRat 379939 100))) ∧
    clusterNameOf referenceRules id (fun _ => 0) 5 11 15000 ≠ "Elite" :=
  ⟨((strict_threshold_boundary referenceRules id (fun _ => 0) 5 5
        (mkRat 379939 100)).1 (by decide)).2.2.2 (by decide),
   ((strict_threshold_boundary referenceRules id (fun _ => 0) 5 11 15000).2
      (by decide)).1⟩

/-- C3: the claim that an out-of-range clusterer index raises
`UnknownClusterIndexError` fails on the code: for a non-outlier triple
whose clusterer returns index 7, the final `else` branch at `app.py`
line 118 silently classifies the customer as Premium. -/
theorem unknown_index_silently_premium :
    clusterNameOf referenceRules id (fun _ => 7) 45 8 1200 = "Premium" := by
  decide

/-- C4: on the non-outlier path the canonical segment is obtained by packing
`[recency, frequency, monetary]` in that order, applying the scaler, then
the clusterer, and, for returned indices 0-3, mapping the index through the
fixed table 0→Regular, 1→Lapsed, 2→Occasional, 3→Premium. -/
theorem fallback_uses_scaler_clusterer_table (rules : BusinessRules)
    (s : Vec3 → Vec3) (k : Vec3 → ℤ) (recency frequency monetary : ℚ)
    (hm : ¬ monetary > rules.outlier_thresholds.monetary)
    (hf : ¬ frequency > rules.outlier_thresholds.frequency)
    (hidx : k (s (recency, frequency, monetary)) = 0 ∨
      k (s (recency, frequency, monetary)) = 1 ∨
      k (s (recency, frequency, monetary)) = 2 ∨
      k (s (recency, frequency, monetary)) = 3) :
    indexTableGet specIndexTable (k (s (recency, frequency, monetary))) =
      some (clusterNameOf rules s k recency frequency monetary) := by
  rw [clusterNameOf_fallback rules s k recency frequency monetary hm hf]
  rcases hidx with h | h | h | h <;> rw [h] <;> decide

/-- Witness for `fallback_uses_scaler_clusterer_table` at a non-outlier
triple with clusterer index 2. -/
theorem fallback_table_witness :
    indexTableGet specIndexTable
        ((fun _ => (2 : ℤ)) (id ((45 : ℚ), (8 : ℚ), (1200 : ℚ)))) =
      some (clusterNameOf referenceRules id (fun _ => 2) 45 8 1200) :=
  fallback_uses_scaler_clusterer_table referenceRules id (fun _ => 2) 45 8 1200
    (by decide) (by decide) (by decide)

/-- C5: on any triple satisfying an outlier condition the classifier invokes
neither the scaler nor the clusterer (both instrumented call counts are
zero), and the canonical segment is identical for any two scaler/clusterer
behaviors. -/
theorem outlier_path_ignores_clusterer (rules : BusinessRules)
    (recency frequency monetary : ℚ)
    (h : monetary > rules.outlier_thresholds.monetary ∨
      frequency > rules.outlier_thresholds.frequency) :
    (∀ s k, (clusterNameCounted rules s k recency frequency monetary).2 = (0, 0)) ∧
    (∀ s₁ k₁ s₂ k₂, clusterNameOf rules s₁ k₁ recency frequency monetary =
      clusterNameOf rules s₂ k₂ recency frequency monetary) := by
  constructor
  · intro s k
    unfold clusterNameCounted
    dsimp only
    by_cases hm : monetary > rules.outlier_thresholds.monetary
    · by_cases hf : frequency > rules.outlier_thresholds.frequency
      · rw [if_pos ⟨hm, hf⟩]
      · rw [if_neg (by tauto), if_pos hm]
    · have hf : frequency > rules.outlier_thresholds.frequency := h.resolve_left hm
      rw [if_neg (by tauto), if_neg hm, if_pos hf]
  · intro s₁ k₁ s₂ k₂
    by_cases hm : monetary > rules.outlier_thresholds.monetary
    · by_cases hf : frequency > rules.outlier_thresholds.frequency
      · rw [clusterNameOf_elite rules s₁ k₁ recency frequency monetary hm hf,
          clusterNameOf_elite rules s₂ k₂ recency frequency monetary hm hf]
      · rw [clusterNameOf_high_spender rules s₁ k₁ recency frequency monetary hm hf,
          clusterNameOf_high_spender rules s₂ k₂ recency frequency monetary hm hf]
    · have hf : frequency > rules.outlier_thresholds.frequency := h.resolve_left hm
      rw [clusterNameOf_power_shopper rules s₁ k₁ recency frequency monetary hm hf,
        clusterNameOf_power_shopper rules s₂ k₂ recency frequency monetary hm hf]

/-- Witness for `outlier_path_ignores_clusterer` at the Elite triple
(10, 25, 15000): zero scaler/clusterer calls and the same segment under two
very different clusterer behaviors. -/
theorem outlier_path_ignores_clusterer_witness :
    (clusterNameCounted referenceRules id (fun _ => 0) 10 25 15000).2 = (0, 0) ∧
    clusterNameOf referenceRules id (fun _ => 0) 10 25 15000 =
      clusterNameOf referenceRules (fun _ => (0, 0, 0)) (fun _ => 7) 10 25 15000 :=
  ⟨(outlier_path_ignores_clusterer referenceRules 10 25 15000
      (Or.inl (by decide))).1 id (fun _ => 0),
   (outlier_path_ignores_clusterer referenceRules 10 25 15000
      (Or.inl (by decide))).2 id (fun _ => 0) (fun _ => (0, 0, 0)) (fun _ => 7)⟩

/-- C6: the claim that every producible canonical segment has an entry in
the deployed display mapping fails on the code: the deployed
`cluster_mapping` is keyed by `"0"`-`"3"` and `"A"`-`"C"`, not by the
canonical names the lookup at `app.py` line 122 uses, so no canonical
segment has an entry, and the Elite request (10, 25, 15000) dies with a
`KeyError` at request time (`load_models` performs no completeness check at
load time). -/
theorem deployed_display_mapping_incomplete :
    dictGet referenceRules.cluster_mapping "Elite" = none ∧
    dictGet referenceRules.cluster_mapping "Regular" = none ∧
    predict_customer_segment referenceRules id (fun _ => 0) 10 25 15000 =
      .error (.keyError "Elite") :=
  ⟨by decide, by decide, rfl⟩

/-- C7: the claim that the response template is present before any request
is served fails on the code: the configuration snippet never sets
`response_template` and `load_models` does not validate it, so even with a
display mapping keyed by canonical names the first prediction request dies
with a `KeyError` on `response_template` at request time. -/
theorem response_template_absent_request_time :
    referenceRules.response_template = none ∧
    predict_customer_segment repairedMappingRules id (fun _ => 0) 45 8 1200 =
      .error (.keyError "response_template") :=
  ⟨by decide, rfl⟩

/-- C8: with the reference thresholds 3799.39 and 11, the triples
(30, 15, 8500) and (10, 25, 15000) are classified Elite, and
(5, 5, 3799.39) takes the clustering fallback, whatever the scaler and
clusterer do. -/
theorem reference_threshold_scenarios :
    ∀ s : Vec3 → Vec3, ∀ k : Vec3 → ℤ,
      clusterNameOf referenceRules s k 30 15 8500 = "Elite" ∧
      clusterNameOf referenceRules s k 10 25 15000 = "Elite" ∧
      clusterNameOf referenceRules s k 5 5 (3799.39 : ℚ) =
        clusterNumName (k (s (5, 5, (3799.39 : ℚ)))) := by
  intro s k
  have h : (3799.39 : ℚ) = mkRat 379939 100 := referenceMonetary_eq.symm
  refine ⟨clusterNameOf_elite _ _ _ _ _ _ (by decide) (by decide),
    clusterNameOf_elite _ _ _ _ _ _ (by decide) (by decide), ?_⟩
  rw [h]
  exact clusterNameOf_fallback _ _ _ _ _ _ (by decide) (by decide)

/-- C9: classification has no side effects: each request hands the exact
state (configuration and model artifacts) it received to the next request,
so every subsequent call observes the same configuration and computes the
same results. -/
theorem classification_no_side_effects (st : AppState)
    (recency frequency monetary : ℚ) :
    (predictInState st recency frequency monetary).2 = st ∧
    ∀ r f m : ℚ,
      predictInState (predictInState st recency frequency monetary).2 r f m =
        predictInState st r f m :=
  ⟨rfl, fun _ _ _ => rfl⟩

/-- C10: recency never influences branch selection: two triples differing
only in recency select the same branch; on the outlier branches the
canonical segment coincides, and whenever the clusterer returns the same
index for both triples the canonical segment coincides as well. -/
theorem recency_noninterference (rules : BusinessRules)
    (s : Vec3 → Vec3) (k : Vec3 → ℤ) (r₁ r₂ frequency monetary : ℚ) :
    branchOf rules r₁ frequency monetary = branchOf rules r₂ frequency monetary ∧
    (branchOf rules r₁ frequency monetary ≠ Branch.fallback →
      clusterNameOf rules s k r₁ frequency monetary =
        clusterNameOf rules s k r₂ frequency monetary) ∧
    (k (s (r₁, frequency, monetary)) = k (s (r₂, frequency, monetary)) →
      clusterNameOf rules s k r₁ frequency monetary =
        clusterNameOf rules s k r₂ frequency monetary) := by
  have hbeq : branchOf rules r₂ frequency monetary =
      branchOf rules r₁ frequency monetary := rfl
  refine ⟨hbeq.symm, ?_, ?_⟩
  · intro hb
    rw [clusterNameOf_eq_branch rules s k r₁ frequency monetary,
      clusterNameOf_eq_branch rules s k r₂ frequency monetary, hbeq]
    cases hb₁ : branchOf rules r₁ frequency monetary
    · rfl
    · rfl
    · rfl
    · exact absurd hb₁ hb
  · intro hk
    rw [clusterNameOf_eq_branch rules s k r₁ frequency monetary,
      clusterNameOf_eq_branch rules s k r₂ frequency monetary, hbeq, hk]

/-- Witness for `recency_noninterference`: the Elite result and a fallback
result are unchanged when only recency changes. -/
theorem recency_noninterference_witness :
    clusterNameOf referenceRules id (fun _ => 0) 30 15 8500 =
      clusterNameOf referenceRules id (fun _ => 0) 99 15 8500 ∧
    clusterNameOf referenceRules id (fun _ => 5) 45 8 1200 =
      clusterNameOf referenceRules id (fun _ => 5) 99 8 1200 :=
  ⟨(recency_noninterference referenceRules id (fun _ => 0) 30 99 15 8500).2.1
      (by decide),
   (recency_noninterference referenceRules id (fun _ => 5) 45 99 8 1200).2.2 rfl⟩

end CustomerSegmentation
